import Mathlib

/-!
Verification of the LLM Request Reliability Layer of the AI-Factory pipeline.

Shallow embedding of the relevant parts of `src/config.py`, `src/llm_providers.py`,
`src/llm_request.py`, `src/llm_validation.py` and `src/llm_processing.py`.
Python strings are modelled as `List Char`; Python exceptions as `Except String`;
Python `None` as `Option.none`.
-/

namespace AIFactory

/-! ## Python string helpers -/

/-- The whitespace characters removed by Python `str.strip()` (ASCII subset;
`\x0b` and `\x0c` written via `Char.ofNat`). -/
def pyWhitespace : List Char := [' ', '\t', '\n', '\r', Char.ofNat 11, Char.ofNat 12]

/-- Whether `c` is Python whitespace. -/
def isPySpace (c : Char) : Bool := pyWhitespace.contains c

/-- Python `str.strip()`: drop leading and trailing whitespace. -/
def pyStrip (s : List Char) : List Char :=
  ((s.dropWhile isPySpace).reverse.dropWhile isPySpace).reverse

/-! ## `src/config.py`: the static provider table -/

/-- `LLM_PROVIDERS["deepseek"]["models"]` from `src/config.py`. -/
def deepseek_models : List String :=
  ["deepseek-reasoner", "deepseek-chat"]

/-- `LLM_PROVIDERS["google_direct"]["models"]` from `src/config.py`. -/
def google_direct_models : List String :=
  ["gemini-2.5-flash-preview-09-2025", "gemini-2.5-flash", "gemini-2.5-pro",
   "gemini-2.0-flash"]

/-- `LLM_PROVIDERS["openrouter"]["models"]` from `src/config.py`. -/
def openrouter_models : List String :=
  ["openai/gpt-5", "openai/gpt-4o", "openai/gpt-4o-mini", "openai/gpt-4-turbo",
   "openai/gpt-3.5-turbo", "google/gemini-2.0-flash-001",
   "google/gemini-2.5-flash-lite-preview-06-17", "google/gemini-2.0-flash-exp:free",
   "deepseek/deepseek-chat-v3.1:free", "perplexity/sonar-reasoning-pro",
   "perplexity/sonar-reasoning-pro:online", "x-ai/grok-4-fast:free",
   "z-ai/glm-4.5-air:free"]

/-- The environment-variable name holding each provider's credential
(`LLM_PROVIDERS[p]["api_key_env"]` in `src/config.py`); `none` for a provider
absent from `LLM_PROVIDERS`. -/
def api_key_env_of (provider : String) : Option String :=
  if provider = "deepseek" then some "DEEPSEEK_API_KEY"
  else if provider = "google_direct" then some "GEMINI_API_KEY"
  else if provider = "openrouter" then some "OPENROUTER_API_KEY"
  else none

/-- `get_provider_for_model` from `src/config.py`: scan the providers in the
dict's insertion order (deepseek, google_direct, openrouter) and return the
first whose model list contains the name; default to `"deepseek"` when no
provider lists the model. -/
def get_provider_for_model (model_name : String) : String :=
  if model_name ∈ deepseek_models then "deepseek"
  else if model_name ∈ google_direct_models then "google_direct"
  else if model_name ∈ openrouter_models then "openrouter"
  else "deepseek"

/-- The provider-dispatch step of `LLMProviderRouter.route_request`
(`src/llm_providers.py` lines 71-100): resolve the provider and dispatch to the
matching adapter (`.ok provider`), or raise
`ValueError("Unknown provider ...")` for any other provider string. -/
def route_request_dispatch (model_name : String) : Except String String :=
  let provider := get_provider_for_model model_name
  if provider = "google_direct" then .ok provider
  else if provider = "deepseek" then .ok provider
  else if provider = "openrouter" then .ok provider
  else .error ("Unknown provider " ++ provider ++ " for model " ++ model_name)

/-! ## `src/llm_validation.py`: the response validator -/

/-- The keyword arguments consulted by `LLMResponseValidator.validate`
(`min_length`, `target_language`, `finish_reason`); a missing kwarg is `none`. -/
structure VKwargs where
  min_length : Option Nat := none
  target_language : Option String := none
  finish_reason : Option String := none
deriving DecidableEq

/-- A caller-supplied custom validator: `custom_validator(response_text, **kwargs)`. -/
def CustomV : Type := List Char → VKwargs → Bool

/-- `LLMResponseValidator._validate_minimal`: `len(text.strip()) >= min_length`. -/
def validate_minimal (text : List Char) (min_length : Nat) : Bool :=
  decide ((pyStrip text).length ≥ min_length)

/-- `valid_reasons` from check 5 of `LLMResponseValidator._validate_v3`. -/
def valid_reasons : List String := ["STOP", "stop", "END_TURN", "end_turn"]

/-- Check 5 of `_validate_v3`, the finish-reason gate: when a non-empty
finish reason is supplied (`if finish_reason:`) and it is not one of
`valid_reasons`, the validation fails with reason `bad_finish_reason`. -/
def finish_reason_gate (finish_reason : Option String) : Option String :=
  match finish_reason with
  | some fr =>
    if fr ≠ "" ∧ fr ∉ valid_reasons then some ("bad_finish_reason (" ++ fr ++ ")")
    else none
  | none => none

/-- Check 6 of `_validate_v3` (the target-language script check), with the
floating-point script-ratio computation abstracted as `language_check`; the
gate runs only when a target language is supplied and non-empty
(`if target_language:`). -/
def language_gate (language_check : List Char → String → Option String)
    (content : List Char) (target_language : Option String) : Option String :=
  match target_language with
  | some tl => if tl ≠ "" then language_check content tl else none
  | none => none

/-- `LLMResponseValidator._validate_v3`. The four numeric content checks
(compression ratio via gzip, Shannon entropy via floating-point `log2`,
bigram-uniqueness ratio and word density, checks 1-4 of the source) use gzip
and floating-point arithmetic, so they are abstracted as the parameter
`numeric_checks`, which given the stripped content returns `some reason` when
one of them fails and `none` when all pass; likewise the language check
(check 6, floating-point script-ratio thresholds) is the parameter
`language_check` inside `language_gate`. Everything else — the empty/too-short
checks, the finish-reason gate, the check order (the Python reassignment
`content = content.strip()` is rendered by applying `pyStrip` at each use) and
the returned `(success, reason)` pair — is embedded concretely. -/
def validate_v3 (numeric_checks : List Char → Option String)
    (language_check : List Char → String → Option String)
    (content : List Char) (min_length : Nat)
    (target_language : Option String) (finish_reason : Option String) :
    Bool × String :=
  if content = [] then (false, "empty_or_invalid")
  else if (pyStrip content).length < min_length then
    (false, "too_short (" ++ toString (pyStrip content).length ++ " < " ++
      toString min_length ++ ")")
  else
    match numeric_checks (pyStrip content) with
    | some r => (false, r)
    | none =>
      match finish_reason_gate finish_reason with
      | some r => (false, r)
      | none =>
        match language_gate language_check (pyStrip content) target_language with
        | some r => (false, r)
        | none => (true, "ok")

/-- `LLMResponseValidator.validate`: dispatch on the validation level, with the
source's order of checks — `"none"` first, then the custom validator, then
`"minimal"`, then `"v3"`, else `ValueError`. The two numeric oracles are
threaded through to `validate_v3`. -/
def validate (numeric_checks : List Char → Option String)
    (language_check : List Char → String → Option String)
    (response_text : List Char) (validation_level : String)
    (custom_validator : Option CustomV) (kw : VKwargs) : Except String Bool :=
  if validation_level = "none" then .ok true
  else
    match custom_validator with
    | some cv => .ok (cv response_text kw)
    | none =>
      if validation_level = "minimal" then
        .ok (validate_minimal response_text (kw.min_length.getD 300))
      else if validation_level = "v3" then
        .ok (validate_v3 numeric_checks language_check response_text
              (kw.min_length.getD 300) kw.target_language kw.finish_reason).1
      else .error ("Unknown validation level: " ++ validation_level)

/-! ## `src/llm_providers.py`: credential checks and the Google adapter -/

/-- `LLMProviderRouter._get_or_create_client` on a cold cache
(`src/llm_providers.py` lines 102-149), up to the construction of the HTTP
client: look the provider up in `LLM_PROVIDERS` (ValueError when absent), read
its credential from the environment, and raise ValueError when the variable is
unset or empty (`if not api_key`). On success the credential is returned in
place of the constructed client. -/
def get_or_create_client (env : String → Option String) (provider : String) :
    Except String String :=
  match api_key_env_of provider with
  | none => .error ("Provider " ++ provider ++ " not found in LLM_PROVIDERS config")
  | some var =>
    match env var with
    | none => .error ("API key not found for provider " ++ provider)
    | some key =>
      if key = "" then .error ("API key not found for provider " ++ provider)
      else .ok key

/-- Token-usage triple of a canonical response (`response_obj.usage`). -/
structure Usage where
  prompt_tokens : Nat
  completion_tokens : Nat
  total_tokens : Nat
deriving DecidableEq

/-- A canonical provider response as seen by `make_request`: the extracted
text (`choices[0].message.content`) and the finish reason. -/
structure Resp where
  text : List Char
  finish_reason : Option String
deriving DecidableEq

/-- One `"parts"` element of a Google candidate: the optional `"text"` field. -/
structure GPart where
  text : Option (List Char)
deriving DecidableEq

/-- The `"usageMetadata"` object of a Google response. -/
structure GUsage where
  promptTokenCount : Option Nat
  candidatesTokenCount : Option Nat
  totalTokenCount : Option Nat
deriving DecidableEq

/-- One `"candidates"` element of a Google response: the optional `"content"`
object (carrying its `"parts"` list) and the optional `"finishReason"`. -/
structure GCandidate where
  content : Option (List GPart)
  finishReason : Option String
deriving DecidableEq

/-- A decoded Google `generateContent` HTTP 200 response body. -/
structure GResult where
  candidates : List GCandidate
  usageMetadata : Option GUsage
deriving DecidableEq

/-- The canonical response `_call_google_direct` constructs. -/
structure GoogleResp where
  text : List Char
  finish_reason : String
  usage : Option Usage
deriving DecidableEq

/-- The response-construction part of `LLMProviderRouter._call_google_direct`
(`src/llm_providers.py` lines 349-413), applied to an already-decoded HTTP 200
body: require a first candidate and its content, concatenate the `"text"` of
every part in order (parts without a `"text"` field are skipped with a
warning), default the finish reason to `"stop"`, and map `"usageMetadata"` to
the usage triple when present — `usage` is `None` when the vendor omits it. -/
def google_direct_parse (r : GResult) : Except String GoogleResp :=
  match r.candidates with
  | [] => .error "No candidates in Google API response"
  | cand :: _ =>
    match cand.content with
    | none => .error "No content in Google API response"
    | some parts =>
      .ok { text := (parts.filterMap GPart.text).flatten,
            finish_reason := cand.finishReason.getD "stop",
            usage := r.usageMetadata.map (fun u =>
              { prompt_tokens := u.promptTokenCount.getD 0,
                completion_tokens := u.candidatesTokenCount.getD 0,
                total_tokens := u.totalTokenCount.getD 0 }) }

/-- `route_request` as seen from `make_request`, for a fixed environment `env`
and with the actual HTTP exchange abstracted as `net` (invoked only once the
provider's credential check has passed; indexed by model and attempt so that a
mocked network may answer differently per attempt): resolve the provider with
`get_provider_for_model`, then fail fast on a missing credential exactly as
the adapters do — `_call_google_direct` reads `GEMINI_API_KEY` directly
(`if not api_key: raise`), the DeepSeek and OpenRouter adapters go through
`_get_or_create_client`. -/
def routerOfEnv (env : String → Option String)
    (net : String → Nat → Except String Resp)
    (model : String) (att : Nat) : Except String Resp :=
  if get_provider_for_model model = "google_direct" then
    match env "GEMINI_API_KEY" with
    | none => .error "GEMINI_API_KEY not found in environment"
    | some key =>
      if key = "" then .error "GEMINI_API_KEY not found in environment"
      else net model att
  else if get_provider_for_model model = "deepseek" ∨
      get_provider_for_model model = "openrouter" then
    match get_or_create_client env (get_provider_for_model model) with
    | .error e => .error e
    | .ok _ => net model att
  else
    .error ("Unknown provider " ++ get_provider_for_model model ++
      " for model " ++ model)

/-! ## `src/llm_request.py`: the retry/fallback orchestrator

`LLMRequestHandler.make_request` is embedded with its collaborators as
parameters: `router` stands for `self.provider_router.route_request` (already
specialised to the request's messages/temperature/...; indexed by model and
attempt number), `validator` for `self.validator.validate` specialised to the
request's validation level, custom validator and kwargs (it receives the
response text and the extracted finish reason, the only per-attempt data the
source passes it), and `post` for the optional post-processor, whose Python
contract `(text, model) -> T | None` (or an exception) becomes
`Except String (Option T)`. The embedding is instrumented with an event
trace recording, in order, every router call, every validator invocation and
every backoff sleep. -/

/-- Observable events of one `make_request` run. -/
inductive Ev where
  | route (model : String) (attempt : Nat) : Ev
  | vcall (text : List Char) : Ev
  | sleep (secs : Nat) : Ev
deriving DecidableEq

/-- `RETRY_CONFIG["max_attempts"]` from `src/config.py`. -/
def max_attempts : Nat := 3

/-- `RETRY_CONFIG["delays"]` from `src/config.py`. -/
def delays : List Nat := [2, 5, 10]

/-- The body of one attempt of `make_request` (`src/llm_request.py` lines
156-315, the `try` block): call the router (an exception is the attempt's
failure); an empty or whitespace-only extracted text is an automatic failure
raised before the validator runs; then validate (a negative verdict raises
`ValueError("Response validation failed")`); then, when a post-processor is
supplied, run it — an exception or a `None` result is a failure with its own
reason; otherwise succeed with the raw response. -/
def attemptBody {T : Type} (router : String → Nat → Except String Resp)
    (validator : List Char → Option String → Bool)
    (post : Option (List Char → String → Except String (Option T)))
    (model : String) (att : Nat) : List Ev × Except String (Resp ⊕ T) :=
  match router model att with
  | .error e => ([Ev.route model att], .error e)
  | .ok resp =>
    if pyStrip resp.text = [] then
      ([Ev.route model att],
       .error ("Empty response from model on attempt " ++ toString att))
    else if validator resp.text resp.finish_reason = false then
      ([Ev.route model att, Ev.vcall resp.text], .error "Response validation failed")
    else
      match post with
      | none => ([Ev.route model att, Ev.vcall resp.text], .ok (Sum.inl resp))
      | some pp =>
        match pp resp.text model with
        | .error e =>
          ([Ev.route model att, Ev.vcall resp.text],
           .error ("Post-processing failed: " ++ e))
        | .ok none =>
          ([Ev.route model att, Ev.vcall resp.text], .error "Post-processor returned None")
        | .ok (some v) => ([Ev.route model att, Ev.vcall resp.text], .ok (Sum.inr v))

/-- The inner retry loop `for attempt in range(1, max_attempts + 1)` of
`make_request`: run attempts starting at index `att` with `fuel` attempts
remaining; after a failed attempt sleep `delays[attempt - 1]` seconds, but
only when `attempt < max_attempts`. Returns the event trace and the first
success, if any. -/
def goAttempts {T : Type} (router : String → Nat → Except String Resp)
    (validator : List Char → Option String → Bool)
    (post : Option (List Char → String → Except String (Option T)))
    (model : String) : Nat → Nat → List Ev × Option (Resp ⊕ T)
  | 0, _ => ([], none)
  | fuel + 1, att =>
    let step := attemptBody router validator post model att
    match step.2 with
    | .ok v => (step.1, some v)
    | .error _ =>
      let rest := goAttempts router validator post model fuel (att + 1)
      if att < max_attempts then
        (step.1 ++ Ev.sleep (delays.getD (att - 1) 0) :: rest.1, rest.2)
      else
        (step.1 ++ rest.1, rest.2)

/-- All `max_attempts` attempts of one model. -/
def tryModel {T : Type} (router : String → Nat → Except String Resp)
    (validator : List Char → Option String → Bool)
    (post : Option (List Char → String → Except String (Option T)))
    (model : String) : List Ev × Option (Resp ⊕ T) :=
  goAttempts router validator post model max_attempts 1

/-- The outcome of `make_request`: a success `(response-or-processed, model)`
or the terminal exception of line 351, whose message embeds the full
`models_to_try` list (carried here as data). -/
inductive ReqResult (T : Type) where
  | success (v : Resp ⊕ T) (model : String)
  | exhausted (models : List String)
deriving DecidableEq

/-- The outer loop over `models_to_try`: try each model in order; when every
model's retry budget is exhausted, raise the terminal error embedding the
whole model list. -/
def goModels {T : Type} (router : String → Nat → Except String Resp)
    (validator : List Char → Option String → Bool)
    (post : Option (List Char → String → Except String (Option T)))
    (models_all : List String) : List String → List Ev × ReqResult T
  | [] => ([], .exhausted models_all)
  | m :: rest =>
    let step := tryModel router validator post m
    match step.2 with
    | some v => (step.1, .success v m)
    | none =>
      let next := goModels router validator post models_all rest
      (step.1 ++ next.1, next.2)

/-- `models_to_try` construction (`src/llm_request.py` lines 139-141):
`[primary]`, plus the fallback when it is set (Python truthiness: non-empty)
and differs from the primary. -/
def buildModels (primary : String) (fallback : Option String) : List String :=
  match fallback with
  | some f => if f ≠ "" ∧ f ≠ primary then [primary, f] else [primary]
  | none => [primary]

/-- `LLMRequestHandler.make_request` for a resolved primary model and optional
fallback: build `models_to_try` and run the retry/fallback loops. -/
def make_request {T : Type} (router : String → Nat → Except String Resp)
    (validator : List Char → Option String → Bool)
    (post : Option (List Char → String → Except String (Option T)))
    (primary : String) (fallback : Option String) : List Ev × ReqResult T :=
  let models := buildModels primary fallback
  goModels router validator post models models

/-- The `(model, attempt)` pairs of the router calls in a trace, in order. -/
def routeEvents (evs : List Ev) : List (String × Nat) :=
  evs.filterMap fun e =>
    match e with
    | Ev.route m a => some (m, a)
    | _ => none

/-- The backoff sleeps of a trace, in order, in seconds. -/
def sleepSecs (evs : List Ev) : List Nat :=
  evs.filterMap fun e =>
    match e with
    | Ev.sleep s => some s
    | _ => none

/-- The texts the validator was invoked on in a trace, in order. -/
def vcallTexts (evs : List Ev) : List (List Char) :=
  evs.filterMap fun e =>
    match e with
    | Ev.vcall t => some t
    | _ => none

/-! ## `src/llm_processing.py`: `_repair_json_control_chars` -/

/-- One lowercase hexadecimal digit, as produced by Python's `x` format. -/
def hexDigit (n : Nat) : Char :=
  if n < 10 then Char.ofNat (48 + n) else Char.ofNat (87 + n)

/-- Python's `format(n, "04x")` for `n < 0x10000`: four lowercase hex digits
(in `_repair_json_control_chars` the argument is `ord(char) < 32`, for which
the `04x` format always emits exactly four digits). -/
def hex4 (n : Nat) : List Char :=
  [hexDigit (n / 4096 % 16), hexDigit (n / 256 % 16), hexDigit (n / 16 % 16),
   hexDigit (n % 16)]

/-- The escape the repair loop emits for a control character: `\n`, `\r`, `\t`
for the three named characters, `\uXXXX` otherwise. -/
def escCtrl (c : Char) : List Char :=
  if c = '\n' then ['\\', 'n']
  else if c = '\r' then ['\\', 'r']
  else if c = '\t' then ['\\', 't']
  else '\\' :: 'u' :: hex4 c.toNat

/-- The scan loop of `_repair_json_control_chars` (`src/llm_processing.py`
lines 1915-1971), with the quote-parity flag `in_string` as the first
argument: a backslash followed by any character is copied verbatim (one
trailing backslash falls through to the plain-copy branch); a double quote
toggles `in_string` and is copied; a control character (`ord < 32`) is
rewritten to its escape only while `in_string`; everything else is copied. -/
def repairGo : Bool → List Char → List Char
  | _, [] => []
  | in_string, c :: rest =>
    if c = '\\' then
      match rest with
      | [] => [c]
      | d :: rest2 => c :: d :: repairGo in_string rest2
    else if c = '"' then
      c :: repairGo (!in_string) rest
    else if in_string = true ∧ c.toNat < 32 then
      escCtrl c ++ repairGo in_string rest
    else
      c :: repairGo in_string rest

/-- `_repair_json_control_chars`: run the scan from outside any string. -/
def repair_json_control_chars (s : List Char) : List Char :=
  repairGo false s

/-- `cleanB b s`: scanning `s` from quote-parity `b`, no raw control character
(`ord < 32`) occurs inside a quoted string. This is the "no raw control
characters inside quoted strings" side condition, evaluated by the same
quote-toggling scan the repair function uses (meaningful for backslash-free
input, where quote parity is unambiguous). -/
def cleanB : Bool → List Char → Bool
  | _, [] => true
  | b, c :: rest =>
    (!(b && decide (c.toNat < 32))) && cleanB (if c = '"' then !b else b) rest

/-- A character the repair loop always copies unchanged whatever the state:
not a backslash, not a quote, not a control character. -/
def plainChar (c : Char) : Prop := c ≠ '\\' ∧ c ≠ '"' ∧ 32 ≤ c.toNat

/-! ## Concrete instantiations used by witnesses and counterexamples -/

/-- A numeric-checks oracle on which every content check passes. -/
def noNumericFail : List Char → Option String := fun _ => none

/-- A language-check oracle on which the language check passes. -/
def noLangFail : List Char → String → Option String := fun _ _ => none

/-- A custom validator that rejects everything. -/
def cvFalse : CustomV := fun _ _ => false

/-- A router that raises on every call (a mocked always-failing router). -/
def alwaysBoom : String → Nat → Except String Resp := fun _ _ => .error "boom"

/-- A validator that accepts everything. -/
def constTrue : List Char → Option String → Bool := fun _ _ => true

/-- A mocked network that always answers with the text `"hi"` and `"STOP"`. -/
def okNet : String → Nat → Except String Resp := fun _ _ => .ok ⟨['h', 'i'], some "STOP"⟩

/-- An environment with no variables set. -/
def emptyEnv : String → Option String := fun _ => none

/-- A router that always answers with whitespace-only text. -/
def blankRouter : String → Nat → Except String Resp :=
  fun _ _ => .ok ⟨[' ', '\n'], some "STOP"⟩

/-! ## Theorems -/

/-- The three configured providers, in the table's insertion order. -/
theorem get_provider_for_model_cases (m : String) :
    get_provider_for_model m = "deepseek" ∨ get_provider_for_model m = "google_direct" ∨
      get_provider_for_model m = "openrouter" := by
  unfold get_provider_for_model
  split_ifs <;> simp

/-- C1 counterexample: the model `"totally-unknown-model"` appears in no
provider's model list, yet `get_provider_for_model` resolves it to the default
provider `"deepseek"` and `route_request` dispatches it to the DeepSeek
adapter instead of raising a configuration error. -/
theorem C1_counterexample :
    ("totally-unknown-model" ∉ deepseek_models ∧
      "totally-unknown-model" ∉ google_direct_models ∧
      "totally-unknown-model" ∉ openrouter_models) ∧
    get_provider_for_model "totally-unknown-model" = "deepseek" ∧
    route_request_dispatch "totally-unknown-model" = .ok "deepseek" := by
  refine ⟨⟨by decide, by decide, by decide⟩, by decide, rfl⟩

/-- C1 (amended): every model name that is not listed in any provider's model
list is resolved to the default provider `"deepseek"` by
`get_provider_for_model` (the source's `# Default to deepseek for unknown
models` branch), and `route_request` dispatches it to the DeepSeek adapter
rather than raising. -/
theorem C1_unknown_model_defaults_to_deepseek (m : String)
    (h1 : m ∉ deepseek_models) (h2 : m ∉ google_direct_models)
    (h3 : m ∉ openrouter_models) :
    get_provider_for_model m = "deepseek" ∧
      route_request_dispatch m = .ok "deepseek" := by
  have hp : get_provider_for_model m = "deepseek" := by
    unfold get_provider_for_model
    rw [if_neg h1, if_neg h2, if_neg h3]
  refine ⟨hp, ?_⟩
  unfold route_request_dispatch
  rw [hp]
  rfl

/-- Witness for C1 at the concrete unknown model `"model-that-is-nowhere"`. -/
theorem C1_witness :
    ("model-that-is-nowhere" ∉ deepseek_models ∧
      "model-that-is-nowhere" ∉ google_direct_models ∧
      "model-that-is-nowhere" ∉ openrouter_models) ∧
    (get_provider_for_model "model-that-is-nowhere" = "deepseek" ∧
      route_request_dispatch "model-that-is-nowhere" = .ok "deepseek") :=
  ⟨⟨by decide, by decide, by decide⟩,
   C1_unknown_model_defaults_to_deepseek "model-that-is-nowhere"
     (by decide) (by decide) (by decide)⟩

/-- C5: with level `"minimal"` and no custom validator, `validate` returns
`True` exactly when the stripped text's length reaches `min_length`, the
latter defaulting to 300 when the kwarg is absent. -/
theorem C5_validate_minimal_iff (nc : List Char → Option String)
    (lc : List Char → String → Option String) (text : List Char) (kw : VKwargs) :
    validate nc lc text "minimal" none kw =
      .ok (decide ((pyStrip text).length ≥ kw.min_length.getD 300)) := by
  rfl

/-- C7 counterexample: with level `"none"` and a custom validator that rejects
everything, `validate` still returns `True` — the `"none"` short-circuit at
the top of `validate` runs before the custom validator is consulted, so the
custom function does not override the level `"none"`. -/
theorem C7_counterexample :
    validate noNumericFail noLangFail ['x', 'y'] "none" (some cvFalse) {} = .ok true ∧
    cvFalse ['x', 'y'] {} = false := by
  exact ⟨rfl, rfl⟩

/-- C7 (amended): for every validation level other than `"none"`, a supplied
custom validator overrides the built-in levels: `validate` returns exactly the
custom function's verdict. With level `"none"` the custom validator is ignored
and `validate` returns `True`. -/
theorem C7_custom_overrides_except_none (nc : List Char → Option String)
    (lc : List Char → String → Option String) (text : List Char) (level : String)
    (cv : CustomV) (kw : VKwargs) (h : level ≠ "none") :
    validate nc lc text level (some cv) kw = .ok (cv text kw) := by
  unfold validate
  rw [if_neg h]

/-- Witness for C7 at level `"minimal"` with the all-rejecting custom
validator. -/
theorem C7_witness :
    "minimal" ≠ "none" ∧
    validate noNumericFail noLangFail ['x'] "minimal" (some cvFalse) {} =
      .ok (cvFalse ['x'] {}) :=
  ⟨by decide,
   C7_custom_overrides_except_none noNumericFail noLangFail ['x'] "minimal"
     cvFalse {} (by decide)⟩

/-- C8: a Google candidate whose content holds any list of parts (each with a
`"text"` field) is extracted as the in-order concatenation of all the parts'
texts — for three parts `t1 ++ t2 ++ t3`, never just the first part. -/
theorem C8_all_parts_concatenated (ts : List (List Char)) (fr : Option String)
    (um : Option GUsage) (rest : List GCandidate) :
    google_direct_parse ⟨⟨some (ts.map fun t => ⟨some t⟩), fr⟩ :: rest, um⟩ =
      .ok ⟨ts.flatten, fr.getD "stop",
        um.map (fun u =>
          { prompt_tokens := u.promptTokenCount.getD 0,
            completion_tokens := u.candidatesTokenCount.getD 0,
            total_tokens := u.totalTokenCount.getD 0 })⟩ := by
  have key : List.filterMap GPart.text (ts.map fun t => (⟨some t⟩ : GPart)) = ts := by
    rw [List.filterMap_map]
    exact List.filterMap_some _
  dsimp only [google_direct_parse]
  rw [key]

/-- C3 counterexample: a Google response with one candidate, one part and no
`"usageMetadata"` is parsed into a canonical response whose `usage` is `None`
(absent) — nothing is estimated from the text length and no "estimated" flag
exists. -/
theorem C3_counterexample :
    google_direct_parse ⟨[⟨some [⟨some ['h', 'i']⟩], some "STOP"⟩], none⟩ =
      .ok ⟨['h', 'i'], "STOP", none⟩ := by
  rfl

/-- C3 (amended): for every Google response that omits `"usageMetadata"` (and
has a parsable first candidate), the canonical response `_call_google_direct`
constructs has `usage = None` — usage is returned as absent, not estimated. -/
theorem C3_missing_usage_is_absent (parts : List GPart) (fr : Option String)
    (rest : List GCandidate) :
    google_direct_parse ⟨⟨some parts, fr⟩ :: rest, none⟩ =
      .ok ⟨(parts.filterMap GPart.text).flatten, fr.getD "stop", none⟩ := by
  rfl

/-- C6: the finish-reason gate of statistical (v3) validation. First: for any
supplied non-empty finish reason outside the natural-stop list
(`STOP`/`stop`/`END_TURN`/`end_turn`), `_validate_v3` fails. Second: any text
that passes the whole v3 validation with `finish_reason="STOP"` fails with
`finish_reason="MAX_TOKENS"`, with reason `bad_finish_reason`. -/
theorem C6_finish_reason_gate :
    (∀ (nc : List Char → Option String) (lc : List Char → String → Option String)
        (content : List Char) (minLen : Nat) (tl : Option String) (fr : String),
        fr ≠ "" → fr ∉ valid_reasons →
        (validate_v3 nc lc content minLen tl (some fr)).1 = false) ∧
    (∀ (nc : List Char → Option String) (lc : List Char → String → Option String)
        (content : List Char) (minLen : Nat) (tl : Option String),
        (validate_v3 nc lc content minLen tl (some "STOP")).1 = true →
        validate_v3 nc lc content minLen tl (some "MAX_TOKENS") =
          (false, "bad_finish_reason (MAX_TOKENS)")) := by
  constructor
  · intro nc lc content minLen tl fr h1 h2
    have hg : finish_reason_gate (some fr) =
        some ("bad_finish_reason (" ++ fr ++ ")") := by
      have he : finish_reason_gate (some fr) =
          if fr ≠ "" ∧ fr ∉ valid_reasons then
            some ("bad_finish_reason (" ++ fr ++ ")")
          else none := rfl
      rw [he, if_pos ⟨h1, h2⟩]
    unfold validate_v3
    by_cases h0 : content = []
    · rw [if_pos h0]
    · rw [if_neg h0]
      by_cases hl : (pyStrip content).length < minLen
      · rw [if_pos hl]
      · rw [if_neg hl]
        rcases hnc : nc (pyStrip content) with _ | r
        · rw [hg]
        · rfl
  · intro nc lc content minLen tl h
    unfold validate_v3 at h ⊢
    by_cases h0 : content = []
    · rw [if_pos h0] at h
      exact absurd h Bool.false_ne_true
    · rw [if_neg h0] at h ⊢
      by_cases hl : (pyStrip content).length < minLen
      · rw [if_pos hl] at h
        exact absurd h Bool.false_ne_true
      · rw [if_neg hl] at h ⊢
        rcases hnc : nc (pyStrip content) with _ | r
        · rfl
        · rw [hnc] at h
          exact absurd h Bool.false_ne_true

/-- Witness for C6: the reason `"CONTENT_FILTER"` is rejected, and the text
`"hi"` (with permissive numeric oracles and `min_length = 1`) passes with
`"STOP"` but fails with `"MAX_TOKENS"`. -/
theorem C6_witness :
    ("CONTENT_FILTER" ≠ "" ∧ "CONTENT_FILTER" ∉ valid_reasons ∧
      (validate_v3 noNumericFail noLangFail ['h', 'i'] 1 none
        (some "CONTENT_FILTER")).1 = false) ∧
    ((validate_v3 noNumericFail noLangFail ['h', 'i'] 1 none (some "STOP")).1 = true ∧
      validate_v3 noNumericFail noLangFail ['h', 'i'] 1 none (some "MAX_TOKENS") =
        (false, "bad_finish_reason (MAX_TOKENS)")) :=
  ⟨⟨by decide, by decide,
    C6_finish_reason_gate.1 noNumericFail noLangFail ['h', 'i'] 1 none
      "CONTENT_FILTER" (by decide) (by decide)⟩,
   ⟨by decide,
    C6_finish_reason_gate.2 noNumericFail noLangFail ['h', 'i'] 1 none (by decide)⟩⟩

/-- A router exception makes the whole attempt fail with that exception,
before any validation. -/
theorem attemptBody_router_error {T : Type} (router : String → Nat → Except String Resp)
    (validator : List Char → Option String → Bool)
    (post : Option (List Char → String → Except String (Option T)))
    (m : String) (a : Nat) (e : String) (h : router m a = .error e) :
    attemptBody router validator post m a = ([Ev.route m a], .error e) := by
  unfold attemptBody
  rw [h]

/-- When the router raises on all three attempts of a model, the retry loop
performs exactly attempts 1, 2, 3 with the backoff sleeps 2s and 5s between
them, and yields no success. -/
theorem tryModel_all_fail {T : Type} (router : String → Nat → Except String Resp)
    (validator : List Char → Option String → Bool)
    (post : Option (List Char → String → Except String (Option T)))
    (m : String) (h : ∀ a : Nat, ∃ e, router m a = .error e) :
    tryModel router validator post m =
      ([Ev.route m 1, Ev.sleep 2, Ev.route m 2, Ev.sleep 5, Ev.route m 3], none) := by
  obtain ⟨e1, h1⟩ := h 1
  obtain ⟨e2, h2⟩ := h 2
  obtain ⟨e3, h3⟩ := h 3
  have b1 := attemptBody_router_error router validator post m 1 e1 h1
  have b2 := attemptBody_router_error router validator post m 2 e2 h2
  have b3 := attemptBody_router_error router validator post m 3 e3 h3
  simp [tryModel, max_attempts, goAttempts, b1, b2, b3, delays]

/-- With an always-raising router and a distinct configured fallback,
`make_request` produces exactly the trace
`primary×3 (with 2s/5s backoff), fallback×3 (with 2s/5s backoff)` and ends
exhausted with the full model list. -/
theorem make_request_all_fail {T : Type} (router : String → Nat → Except String Resp)
    (validator : List Char → Option String → Bool)
    (post : Option (List Char → String → Except String (Option T)))
    (p f : String) (h : ∀ m a, ∃ e, router m a = .error e)
    (hf1 : f ≠ "") (hf2 : f ≠ p) :
    make_request router validator post p (some f) =
      ([Ev.route p 1, Ev.sleep 2, Ev.route p 2, Ev.sleep 5, Ev.route p 3,
        Ev.route f 1, Ev.sleep 2, Ev.route f 2, Ev.sleep 5, Ev.route f 3],
       .exhausted [p, f]) := by
  have hp := tryModel_all_fail router validator post p (h p)
  have hfm := tryModel_all_fail router validator post f (h f)
  simp [make_request, buildModels, hf1, hf2, goModels, hp, hfm]

/-- C4: with an always-failing router and a configured fallback distinct from
the primary, `make_request` performs exactly six attempts, in the order
`[primary, primary, primary, fallback, fallback, fallback]`, and then raises
the terminal error embedding the full attempted-model list `[primary,
fallback]` — it does not return any content. -/
theorem C4_exhaustion_order {T : Type} (router : String → Nat → Except String Resp)
    (validator : List Char → Option String → Bool)
    (post : Option (List Char → String → Except String (Option T)))
    (p f : String) (h : ∀ m a, ∃ e, router m a = .error e)
    (hf1 : f ≠ "") (hf2 : f ≠ p) :
    routeEvents (make_request router validator post p (some f)).1 =
      [(p, 1), (p, 2), (p, 3), (f, 1), (f, 2), (f, 3)] ∧
    (make_request router validator post p (some f)).2 =
      ReqResult.exhausted [p, f] := by
  rw [make_request_all_fail router validator post p f h hf1 hf2]
  exact ⟨rfl, rfl⟩

/-- Witness for C4: the concrete always-raising router `alwaysBoom` with
primary `"p"` and fallback `"f"`. -/
theorem C4_witness :
    "f" ≠ "" ∧ "f" ≠ "p" ∧
    (routeEvents (make_request (T := Unit) alwaysBoom constTrue none "p" (some "f")).1 =
        [("p", 1), ("p", 2), ("p", 3), ("f", 1), ("f", 2), ("f", 3)] ∧
      (make_request (T := Unit) alwaysBoom constTrue none "p" (some "f")).2 =
        ReqResult.exhausted ["p", "f"]) :=
  ⟨by decide, by decide,
   C4_exhaustion_order alwaysBoom constTrue none "p" "f"
     (fun _ _ => ⟨"boom", rfl⟩) (by decide) (by decide)⟩

/-- C9: an attempt whose routed response has empty or whitespace-only text
fails automatically — the attempt body raises the empty-response error (which
the surrounding loop treats exactly like any other attempt failure, i.e. it
retries) and its trace contains the router call but no validator invocation:
the validator is never consulted on that attempt. -/
theorem C9_empty_text_skips_validator {T : Type}
    (router : String → Nat → Except String Resp)
    (validator : List Char → Option String → Bool)
    (post : Option (List Char → String → Except String (Option T)))
    (m : String) (a : Nat) (resp : Resp)
    (hr : router m a = .ok resp) (he : pyStrip resp.text = []) :
    attemptBody router validator post m a =
      ([Ev.route m a],
       .error ("Empty response from model on attempt " ++ toString a)) ∧
    vcallTexts (attemptBody router validator post m a).1 = [] := by
  have hb : attemptBody router validator post m a =
      ([Ev.route m a],
       .error ("Empty response from model on attempt " ++ toString a)) := by
    unfold attemptBody
    rw [hr]
    dsimp only
    rw [if_pos he]
  exact ⟨hb, by rw [hb]; rfl⟩

/-- Witness for C9: the router `blankRouter` answers with the whitespace-only
text `" \n"`; the attempt fails with the empty-response error without any
validator call. -/
theorem C9_witness :
    blankRouter "m" 1 = .ok ⟨[' ', '\n'], some "STOP"⟩ ∧
    pyStrip [' ', '\n'] = [] ∧
    (attemptBody (T := Unit) blankRouter constTrue none "m" 1 =
        ([Ev.route "m" 1], .error ("Empty response from model on attempt " ++ toString 1)) ∧
      vcallTexts (attemptBody (T := Unit) blankRouter constTrue none "m" 1).1 = []) :=
  ⟨rfl, by decide,
   C9_empty_text_skips_validator blankRouter constTrue none "m" 1
     ⟨[' ', '\n'], some "STOP"⟩ rfl (by decide)⟩

/-- Under the empty environment every route raises a missing-credential
configuration error, whichever provider the model resolves to. -/
theorem routerOfEnv_emptyEnv_error (net : String → Nat → Except String Resp)
    (m : String) (a : Nat) :
    ∃ e, routerOfEnv emptyEnv net m a = .error e := by
  rcases get_provider_for_model_cases m with hp | hp | hp
  · refine ⟨"API key not found for provider deepseek", ?_⟩
    unfold routerOfEnv
    rw [hp]
    rfl
  · refine ⟨"GEMINI_API_KEY not found in environment", ?_⟩
    unfold routerOfEnv
    rw [hp]
    rfl
  · refine ⟨"API key not found for provider openrouter", ?_⟩
    unfold routerOfEnv
    rw [hp]
    rfl

/-- C2 counterexample: with no credential present in the environment (so the
resolved provider's API key is missing on every attempt), `make_request` with
the translation stage's primary (`deepseek-reasoner`) and fallback
(`google/gemini-2.5-flash-lite-preview-06-17`) does not raise immediately: it
performs all six attempts, sleeps the 2s/5s backoff between same-model
attempts, moves on to the fallback model, and only then raises the terminal
exhaustion error. -/
theorem C2_counterexample :
    make_request (T := Unit) (routerOfEnv emptyEnv okNet) constTrue none
        "deepseek-reasoner" (some "google/gemini-2.5-flash-lite-preview-06-17") =
      ([Ev.route "deepseek-reasoner" 1, Ev.sleep 2, Ev.route "deepseek-reasoner" 2,
        Ev.sleep 5, Ev.route "deepseek-reasoner" 3,
        Ev.route "google/gemini-2.5-flash-lite-preview-06-17" 1, Ev.sleep 2,
        Ev.route "google/gemini-2.5-flash-lite-preview-06-17" 2, Ev.sleep 5,
        Ev.route "google/gemini-2.5-flash-lite-preview-06-17" 3],
       .exhausted ["deepseek-reasoner", "google/gemini-2.5-flash-lite-preview-06-17"]) := by
  rfl

/-- C2 (amended): a missing-credential configuration error is not fatal to
`make_request`: raised inside the per-attempt `try`, it is caught by the
retry loop like any other failure, so with no credentials in the environment
the request is retried three times per model with the 2s/5s backoff, the
fallback model is attempted, and only after exhausting all models does
`make_request` raise the terminal error with the attempted-model list. -/
theorem C2_missing_credential_is_retried {T : Type}
    (net : String → Nat → Except String Resp)
    (validator : List Char → Option String → Bool)
    (post : Option (List Char → String → Except String (Option T)))
    (p f : String) (hf1 : f ≠ "") (hf2 : f ≠ p) :
    make_request (routerOfEnv emptyEnv net) validator post p (some f) =
      ([Ev.route p 1, Ev.sleep 2, Ev.route p 2, Ev.sleep 5, Ev.route p 3,
        Ev.route f 1, Ev.sleep 2, Ev.route f 2, Ev.sleep 5, Ev.route f 3],
       .exhausted [p, f]) :=
  make_request_all_fail (routerOfEnv emptyEnv net) validator post p f
    (fun m a => routerOfEnv_emptyEnv_error net m a) hf1 hf2

/-- Witness for C2 at the fact-check stage's configured models. -/
theorem C2_witness :
    "gemini-2.5-flash" ≠ "" ∧ "gemini-2.5-flash" ≠ "gemini-2.5-flash-preview-09-2025" ∧
    make_request (T := Unit) (routerOfEnv emptyEnv okNet) constTrue none
        "gemini-2.5-flash-preview-09-2025" (some "gemini-2.5-flash") =
      ([Ev.route "gemini-2.5-flash-preview-09-2025" 1, Ev.sleep 2,
        Ev.route "gemini-2.5-flash-preview-09-2025" 2, Ev.sleep 5,
        Ev.route "gemini-2.5-flash-preview-09-2025" 3,
        Ev.route "gemini-2.5-flash" 1, Ev.sleep 2,
        Ev.route "gemini-2.5-flash" 2, Ev.sleep 5,
        Ev.route "gemini-2.5-flash" 3],
       .exhausted ["gemini-2.5-flash-preview-09-2025", "gemini-2.5-flash"]) :=
  ⟨by decide, by decide,
   C2_missing_credential_is_retried okNet constTrue none
     "gemini-2.5-flash-preview-09-2025" "gemini-2.5-flash" (by decide) (by decide)⟩

/-! ### Lemmas about `_repair_json_control_chars` -/

/-- The scan of the empty input is empty. -/
theorem repairGo_nil (b : Bool) : repairGo b [] = [] := by
  simp only [repairGo]

/-- Unfolding equation for one scan step. -/
theorem repairGo_cons (b : Bool) (c : Char) (rest : List Char) :
    repairGo b (c :: rest) =
      if c = '\\' then
        match rest with
        | [] => [c]
        | d :: rest2 => c :: d :: repairGo b rest2
      else if c = '"' then c :: repairGo (!b) rest
      else if b = true ∧ c.toNat < 32 then escCtrl c ++ repairGo b rest
      else c :: repairGo b rest := by
  rw [repairGo.eq_def]

/-- A backslash followed by any character is copied verbatim as a pair. -/
theorem repairGo_pair (b : Bool) (d : Char) (rest : List Char) :
    repairGo b ('\\' :: d :: rest) = '\\' :: d :: repairGo b rest := by
  rw [repairGo_cons, if_pos rfl]

/-- A single trailing backslash is copied as-is. -/
theorem repairGo_backslash_end (b : Bool) : repairGo b ['\\'] = ['\\'] := by
  rw [repairGo_cons, if_pos rfl]

/-- A quote toggles the string-parity flag. -/
theorem repairGo_quote (b : Bool) (rest : List Char) :
    repairGo b ('"' :: rest) = '"' :: repairGo (!b) rest := by
  rw [repairGo_cons, if_neg (by decide : ¬('"' = '\\')), if_pos rfl]

/-- A character that is neither backslash nor quote nor an in-string control
character is copied unchanged. -/
theorem repairGo_plain (b : Bool) (c : Char) (rest : List Char)
    (hc : c ≠ '\\') (hq : c ≠ '"') (h : ¬(b = true ∧ c.toNat < 32)) :
    repairGo b (c :: rest) = c :: repairGo b rest := by
  rw [repairGo_cons, if_neg hc, if_neg hq, if_neg h]

/-- Inside a string, a control character is rewritten to its escape. -/
theorem repairGo_ctrl (c : Char) (rest : List Char) (h : c.toNat < 32) :
    repairGo true (c :: rest) = escCtrl c ++ repairGo true rest := by
  have hc : c ≠ '\\' := by
    intro e
    subst e
    exact absurd h (by decide)
  have hq : c ≠ '"' := by
    intro e
    subst e
    exact absurd h (by decide)
  rw [repairGo_cons, if_neg hc, if_neg hq, if_pos ⟨rfl, h⟩]

/-- A list of plain characters passes through the scan unchanged, in any
state, without affecting the rest of the scan. -/
theorem repairGo_plain_append (b : Bool) (l t : List Char)
    (hl : ∀ c ∈ l, plainChar c) :
    repairGo b (l ++ t) = l ++ repairGo b t := by
  induction l with
  | nil => rfl
  | cons c l ih =>
    obtain ⟨hc, hq, hge⟩ := hl c (List.mem_cons_self c l)
    have h : ¬(b = true ∧ c.toNat < 32) := by
      rintro ⟨-, hlt⟩
      omega
    rw [List.cons_append, repairGo_plain b c (l ++ t) hc hq h,
      ih (fun c hc => hl c (List.mem_cons_of_mem _ hc))]
    rfl

/-- Every lowercase hex digit is a plain character. -/
theorem hexDigit_plainChar (n : Nat) (h : n < 16) : plainChar (hexDigit n) := by
  have key : ∀ m : Fin 16,
      hexDigit m.val ≠ '\\' ∧ hexDigit m.val ≠ '"' ∧ 32 ≤ (hexDigit m.val).toNat := by
    decide
  exact key ⟨n, h⟩

/-- Every character of a `\uXXXX` digit block is plain. -/
theorem hex4_plainChar (n : Nat) : ∀ c ∈ hex4 n, plainChar c := by
  intro c hc
  unfold hex4 at hc
  simp only [List.mem_cons, List.not_mem_nil, or_false] at hc
  rcases hc with h | h | h | h <;> subst h <;>
    exact hexDigit_plainChar _ (Nat.mod_lt _ (by norm_num))

/-- The escape emitted for a control character re-scans to itself, in any
state, without affecting the rest of the scan: it is a backslash pair
optionally followed by plain hex digits. -/
theorem repairGo_escCtrl (b : Bool) (c : Char) (t : List Char) :
    repairGo b (escCtrl c ++ t) = escCtrl c ++ repairGo b t := by
  unfold escCtrl
  split_ifs
  · exact repairGo_pair b 'n' t
  · exact repairGo_pair b 'r' t
  · exact repairGo_pair b 't' t
  · show repairGo b ('\\' :: 'u' :: (hex4 c.toNat ++ t)) =
      '\\' :: 'u' :: (hex4 c.toNat ++ repairGo b t)
    rw [repairGo_pair, repairGo_plain_append b _ t (hex4_plainChar c.toNat)]

/-- The scan is idempotent from any state (induction on the length bound). -/
theorem repairGo_idem_aux :
    ∀ (n : Nat) (b : Bool) (s : List Char), s.length ≤ n →
      repairGo b (repairGo b s) = repairGo b s := by
  intro n
  induction n with
  | zero =>
    intro b s hs
    rw [List.length_eq_zero.mp (Nat.le_zero.mp hs)]
    simp only [repairGo_nil]
  | succ n ih =>
    intro b s hs
    rcases s with _ | ⟨c, rest⟩
    · simp only [repairGo_nil]
    · by_cases hc : c = '\\'
      · subst hc
        rcases rest with _ | ⟨d, rest2⟩
        · rw [repairGo_backslash_end, repairGo_backslash_end]
        · rw [repairGo_pair, repairGo_pair,
            ih b rest2 (by simp only [List.length_cons] at hs ⊢; omega)]
      · by_cases hq : c = '"'
        · subst hq
          rw [repairGo_quote, repairGo_quote,
            ih (!b) rest (by simp only [List.length_cons] at hs; omega)]
        · by_cases hctrl : b = true ∧ c.toNat < 32
          · obtain ⟨hb, hlt⟩ := hctrl
            subst hb
            rw [repairGo_ctrl c rest hlt, repairGo_escCtrl true c _,
              ih true rest (by simp only [List.length_cons] at hs; omega)]
          · rw [repairGo_plain b c rest hc hq hctrl,
              repairGo_plain b c _ hc hq hctrl,
              ih b rest (by simp only [List.length_cons] at hs; omega)]

/-- Unfolding equation for one step of the cleanliness scan. -/
theorem cleanB_cons (b : Bool) (c : Char) (rest : List Char) :
    cleanB b (c :: rest) =
      ((!(b && decide (c.toNat < 32))) &&
        cleanB (if c = '"' then !b else b) rest) := by
  rw [cleanB.eq_def]

/-- A backslash-free input with no raw control characters inside quoted
strings is left unchanged by the scan from any matching state. -/
theorem repairGo_clean_id (s : List Char) :
    ∀ b : Bool, '\\' ∉ s → cleanB b s = true → repairGo b s = s := by
  induction s with
  | nil =>
    intro b _ _
    exact repairGo_nil b
  | cons c rest ih =>
    intro b hnb hcl
    have hc : c ≠ '\\' := fun e => hnb (e ▸ List.mem_cons_self c rest)
    have hnb2 : '\\' ∉ rest := fun hm => hnb (List.mem_cons_of_mem c hm)
    rw [cleanB_cons, Bool.and_eq_true] at hcl
    obtain ⟨h1, h2⟩ := hcl
    by_cases hq : c = '"'
    · subst hq
      rw [if_pos rfl] at h2
      rw [repairGo_quote, ih (!b) hnb2 h2]
    · rw [if_neg hq] at h2
      have hnc : ¬(b = true ∧ c.toNat < 32) := by
        rintro ⟨hb, hlt⟩
        subst hb
        simp only [Bool.true_and, Bool.not_eq_eq_eq_not, Bool.not_true,
          decide_eq_false_iff_not] at h1
        exact h1 hlt
      rw [repairGo_plain b c rest hc hq hnc, ih b hnb2 h2]

/-- C10: `_repair_json_control_chars` is idempotent — applying it twice gives
the same result as applying it once, for every input — and it is the identity
on every input that contains no backslash and no raw control character inside
quoted strings (`cleanB false`). -/
theorem C10_repair_idempotent_identity :
    (∀ s : List Char,
      repair_json_control_chars (repair_json_control_chars s) =
        repair_json_control_chars s) ∧
    (∀ s : List Char, '\\' ∉ s → cleanB false s = true →
      repair_json_control_chars s = s) := by
  constructor
  · intro s
    exact repairGo_idem_aux s.length false s le_rfl
  · intro s hnb hcl
    exact repairGo_clean_id s false hnb hcl

/-- Witness for C10: idempotence at the concrete input `"a<newline>"` (which
the repair changes), and identity at the concrete clean input `"ok"` with the
quotes included. -/
theorem C10_witness :
    repair_json_control_chars (repair_json_control_chars ['"', 'a', '\n', '"']) =
      repair_json_control_chars ['"', 'a', '\n', '"'] ∧
    ('\\' ∉ (['"', 'o', 'k', '"'] : List Char) ∧
      cleanB false ['"', 'o', 'k', '"'] = true ∧
      repair_json_control_chars ['"', 'o', 'k', '"'] = ['"', 'o', 'k', '"']) :=
  ⟨C10_repair_idempotent_identity.1 ['"', 'a', '\n', '"'],
   by decide, by decide,
   C10_repair_idempotent_identity.2 ['"', 'o', 'k', '"'] (by decide) (by decide)⟩

end AIFactory
